import Mathlib

/-!
Verification of the AutoGenSystem diagnostics orchestrator
(`src/orchestrator/diagnostics_orchestrator.py`, `src/app.py`).

The development shallowly embeds the two components with behavioural
contracts — the metrics analyzer inside `process_diagnostics` and the
recommendation extractor `_extract_recommendations` — together with the
collector error path of `collect_system_info` and the `/recommendations`
endpoint wrapper.  Python floats become `ℚ`, dictionaries with possibly
missing keys become structures with `Option` fields, and exceptions become
`Except`.
-/

namespace AutoGenSystem

/-! ## Raw metrics (the collector's JSON document) -/

/-- One entry of the `cpus` array of the collector output. -/
structure CpuInfo where
  index : Nat
  usage : ℚ
  deriving DecidableEq, Repr

/-- One entry of the `disks` array of the collector output. -/
structure Disk where
  mount_point : String
  total_gb : ℚ
  available_gb : ℚ
  used_gb : ℚ
  deriving DecidableEq, Repr

/-- The JSON document printed by the external collector. -/
structure RawMetrics where
  cpu_count : Nat
  cpus : List CpuInfo
  total_memory_gb : ℚ
  used_memory_gb : ℚ
  available_memory_gb : ℚ
  memory_usage_percentage : ℚ
  disks : List Disk
  deriving DecidableEq, Repr

/-! ## Metrics analyzer (`process_diagnostics`, lines 257–285) -/

/-- `"high" if p > 80 else "medium" if p > 60 else "normal"`
(line 270–271 of the source). -/
def pressureLevel (p : ℚ) : String :=
  if p > 80 then "high" else if p > 60 then "medium" else "normal"

/-- `(disk["used_gb"] / disk["total_gb"] * 100) if disk["total_gb"] > 0 else 0`
(line 279 of the source). -/
def diskUsagePercentage (d : Disk) : ℚ :=
  if d.total_gb > 0 then d.used_gb / d.total_gb * 100 else 0

/-- `"critical" if available_gb < 10 else "warning" if available_gb < 50 else "ok"`
(lines 280–281 of the source). -/
def diskStatus (d : Disk) : String :=
  if d.available_gb < 10 then "critical"
  else if d.available_gb < 50 then "warning" else "ok"

/-- One entry of the analyzed `storage` list. -/
structure DiskAnalysis where
  mount_point : String
  total_gb : ℚ
  available_gb : ℚ
  used_gb : ℚ
  usage_percentage : ℚ
  status : String
  deriving DecidableEq, Repr

/-- The per-disk branch of the storage comprehension (lines 274–282). -/
def analyzeDisk (d : Disk) : DiskAnalysis :=
  { mount_point := d.mount_point
    total_gb := d.total_gb
    available_gb := d.available_gb
    used_gb := d.used_gb
    usage_percentage := diskUsagePercentage d
    status := diskStatus d }

/-- The `cpu` part of `analyzed_metrics`. -/
structure CpuAnalysis where
  core_count : Nat
  average_usage : ℚ
  usage_per_core : List ℚ
  high_usage_cores : List Nat
  deriving DecidableEq, Repr

/-- The `memory` part of `analyzed_metrics`. -/
structure MemoryAnalysis where
  total_gb : ℚ
  used_gb : ℚ
  available_gb : ℚ
  usage_percentage : ℚ
  pressure_level : String
  deriving DecidableEq, Repr

/-- The full `analyzed_metrics` dictionary. -/
structure AnalyzedMetrics where
  cpu : CpuAnalysis
  memory : MemoryAnalysis
  storage : List DiskAnalysis
  deriving DecidableEq, Repr

/-- The pure transformation building `analyzed_metrics` from the raw
collector output (lines 257–285 of the source). -/
def analyze (raw : RawMetrics) : AnalyzedMetrics :=
  { cpu :=
      { core_count := raw.cpu_count
        average_usage := (raw.cpus.map (·.usage)).sum / (raw.cpu_count : ℚ)
        usage_per_core := raw.cpus.map (·.usage)
        high_usage_cores :=
          (raw.cpus.filter (fun c => c.usage > 80)).map (·.index) }
    memory :=
      { total_gb := raw.total_memory_gb
        used_gb := raw.used_memory_gb
        available_gb := raw.available_memory_gb
        usage_percentage := raw.memory_usage_percentage
        pressure_level := pressureLevel raw.memory_usage_percentage }
    storage := raw.disks.map analyzeDisk }

/-! ## Recommendation extractor (`_extract_recommendations`, lines 129–223) -/

/-- Substring search on character lists: does the haystack start with the
pattern?  Models Python's prefix comparison inside `in`. -/
def leadMatch : List Char → List Char → Bool
  | [], _ => true
  | _ :: _, [] => false
  | p :: ps, c :: cs => p == c && leadMatch ps cs

/-- Does the pattern occur contiguously in the haystack? -/
def subOccurs (pat : List Char) : List Char → Bool
  | [] => leadMatch pat []
  | c :: rest => leadMatch pat (c :: rest) || subOccurs pat rest

/-- Python's `pat in hay` substring test on strings. -/
def containsSub (hay pat : String) : Bool :=
  subOccurs pat.data hay.data

/-- Python's `str.lower()` (ASCII case folding suffices for the keywords
involved). -/
def lowerStr (s : String) : String :=
  String.mk (s.data.map Char.toLower)

/-- Python's `str.strip()`: remove leading and trailing whitespace. -/
def trimStr (s : String) : String :=
  String.mk
    (((s.data.dropWhile Char.isWhitespace).reverse.dropWhile
        Char.isWhitespace).reverse)

/-- Python's `str.startswith(pat)`. -/
def strStartsWith (s pat : String) : Bool :=
  leadMatch pat.data s.data

/-- Python's `str.endswith(pat)`. -/
def strEndsWith (s pat : String) : Bool :=
  leadMatch pat.data.reverse s.data.reverse

/-- Python's `s[n:]`. -/
def dropChars (n : Nat) (s : String) : String :=
  String.mk (s.data.drop n)

/-- Split a character list at a separator character, keeping empty
segments (Python's `str.split(sep)` semantics). -/
def splitOnChar (sep : Char) : List Char → List (List Char)
  | [] => [[]]
  | c :: cs =>
      if c == sep then [] :: splitOnChar sep cs
      else
        match splitOnChar sep cs with
        | [] => [[c]]
        | g :: gs => (c :: g) :: gs

/-- Python's `content.split('\n')` (line 145). -/
def splitNewlines (s : String) : List String :=
  (splitOnChar '\n' s.data).map String.mk

/-- The four recommendation buckets of the extractor. -/
inductive RecCat where
  | critical
  | performance
  | optimization
  | upgrade
  deriving DecidableEq, Repr

/-- The `recommendations` dictionary (lines 133–138). -/
structure Recs where
  critical_issues : List String
  performance : List String
  optimization : List String
  upgrade_recommendations : List String
  deriving DecidableEq, Repr

/-- The initial empty `recommendations` dictionary. -/
def recsEmpty : Recs :=
  { critical_issues := []
    performance := []
    optimization := []
    upgrade_recommendations := [] }

/-- Projection of a `Recs` at a bucket. -/
def recsGet (r : Recs) : RecCat → List String
  | .critical => r.critical_issues
  | .performance => r.performance
  | .optimization => r.optimization
  | .upgrade => r.upgrade_recommendations

/-- `recommendations[c].append(s)`. -/
def addTo (r : Recs) (c : RecCat) (s : String) : Recs :=
  match c with
  | .critical => { r with critical_issues := r.critical_issues ++ [s] }
  | .performance => { r with performance := r.performance ++ [s] }
  | .optimization => { r with optimization := r.optimization ++ [s] }
  | .upgrade =>
      { r with upgrade_recommendations := r.upgrade_recommendations ++ [s] }

/-- The keyword dispatch of the per-line `if`/`elif` chain
(lines 154–180): which branch does a stripped line enter, if any? -/
def catOfLine (line : String) : Option RecCat :=
  if containsSub (lowerStr line) "critical" || containsSub (lowerStr line) "immediate" then
    some .critical
  else if containsSub (lowerStr line) "performance" then
    some .performance
  else if containsSub (lowerStr line) "optimization" || containsSub (lowerStr line) "optimize" then
    some .optimization
  else if containsSub (lowerStr line) "upgrade" then
    some .upgrade
  else
    none

/-- Loop state of the line scan: the buckets built so far and
`current_category`. -/
structure ScanState where
  recs : Recs
  cur : Option RecCat
  deriving DecidableEq, Repr

/-- One iteration of the inner `for line in lines` loop
(lines 148–184): strip, skip blanks, keyword dispatch with
header/bullet handling, else the `current_category` bullet branch. -/
def processLine (st : ScanState) (rawLine : String) : ScanState :=
  let line := trimStr rawLine
  if line = "" then st
  else
    match catOfLine line with
    | some c =>
        if strEndsWith line ":" then { st with cur := some c }
        else if strStartsWith line "-" then
          { st with recs := addTo st.recs c (trimStr (dropChars 1 line)) }
        else st
    | none =>
        match st.cur with
        | some c =>
            if strStartsWith line "-" then
              { st with recs := addTo st.recs c (trimStr (dropChars 1 line)) }
            else st
        | none => st

/-- Scan a list of lines from a given state. -/
def scanLines (ls : List String) (st : ScanState) : ScanState :=
  ls.foldl processLine st

/-- One iteration of the outer `for message in expert_responses` loop
(lines 143–184): split the content into lines and scan them with
`current_category` reset to `None`. -/
def processMessage (r : Recs) (content : String) : Recs :=
  (scanLines (splitNewlines content) { recs := r, cur := none }).recs

/-- `_is_memory_critical` (lines 225–228) applied to the raw first-message
content. -/
def isMemoryCritical (firstContent : String) : Bool :=
  containsSub (lowerStr firstContent) "pressure_level: high"

/-- `_has_cpu_hotspots` (lines 230–233) applied to the raw first-message
content. -/
def hasCpuHotspots (firstContent : String) : Bool :=
  containsSub (lowerStr firstContent) "high usage cores"

/-- The hard-coded critical-issue string appended on high memory pressure
(line 189). -/
def memCritStr : String :=
  "High memory pressure detected: System is using 86% of available RAM, only 4.4GB free"

/-- The hard-coded upgrade string appended on high memory pressure
(line 192). -/
def memUpgStr : String :=
  "Consider upgrading RAM capacity given the high memory usage"

/-- The hard-coded performance string appended on CPU hotspots (line 198). -/
def cpuPerfStr : String :=
  "Some CPU cores (0,1,2) showing high usage (>40%). Consider reviewing process affinity settings"

/-- The hard-coded optimization string appended on CPU hotspots (line 201). -/
def cpuOptStr : String :=
  "Optimize workload distribution across CPU cores to better utilize available resources"

/-- The supplementary memory-pressure rule (lines 186–193). -/
def addMemoryCritical (firstContent : String) (r : Recs) : Recs :=
  if isMemoryCritical firstContent then
    { r with
        critical_issues := r.critical_issues ++ [memCritStr]
        upgrade_recommendations := r.upgrade_recommendations ++ [memUpgStr] }
  else r

/-- The supplementary CPU-hotspot rule (lines 195–202). -/
def addCpuHotspots (firstContent : String) (r : Recs) : Recs :=
  if hasCpuHotspots firstContent then
    { r with
        performance := r.performance ++ [cpuPerfStr]
        optimization := r.optimization ++ [cpuOptStr] }
  else r

/-- `list(set(filter(None, xs)))` (line 206): drop falsy (empty) strings and
de-duplicate; Python's set order is arbitrary, represented here by keeping
first occurrences. -/
def dedupNonEmpty (xs : List String) : List String :=
  (xs.filter (fun s => !(s == ""))).dedup

/-- The set-reduction pass over all four buckets (lines 204–206). -/
def reduceRecs (r : Recs) : Recs :=
  { critical_issues := dedupNonEmpty r.critical_issues
    performance := dedupNonEmpty r.performance
    optimization := dedupNonEmpty r.optimization
    upgrade_recommendations := dedupNonEmpty r.upgrade_recommendations }

/-- `_add_default_recommendations` (lines 235–248), including the
`critical_issues`-guarded upgrade item. -/
def addDefaultRecommendations (r : Recs) : Recs :=
  let r :=
    { r with
        performance := r.performance ++
          ["Monitor and optimize applications with high resource usage",
           "Review system startup programs and services"] }
  let r :=
    { r with
        optimization := r.optimization ++
          ["Implement regular system maintenance and cleanup",
           "Monitor resource usage patterns over time"] }
  if !r.critical_issues.isEmpty then
    { r with
        upgrade_recommendations := r.upgrade_recommendations ++
          ["Review hardware specifications against workload requirements"] }
  else r

/-- `if not any(recommendations.values())` (line 209): all four buckets
empty. -/
def allEmpty (r : Recs) : Bool :=
  r.critical_issues.isEmpty && r.performance.isEmpty &&
    r.optimization.isEmpty && r.upgrade_recommendations.isEmpty

/-- A chat-history message: a Python dictionary whose `role` and `content`
keys may be missing (missing key modelled as `none`). -/
structure Msg where
  role : Option String
  content : Option String
  deriving DecidableEq, Repr

/-- Dictionary key access: raises (`Except.error`) when the key is
missing. -/
def getKey : Option α → Except Unit α
  | some v => Except.ok v
  | none => Except.error ()

/-- The list comprehension selecting assistant messages (line 141);
accesses each message's `role` key in order. -/
def filterAssistant : List Msg → Except Unit (List Msg)
  | [] => Except.ok []
  | m :: ms =>
      match getKey m.role with
      | Except.error e => Except.error e
      | Except.ok r =>
          match filterAssistant ms with
          | Except.error e => Except.error e
          | Except.ok rest =>
              Except.ok (if r == "assistant" then m :: rest else rest)

/-- Access the `content` key of each expert message in order (line 144). -/
def contentsOf : List Msg → Except Unit (List String)
  | [] => Except.ok []
  | m :: ms =>
      match getKey m.content with
      | Except.error e => Except.error e
      | Except.ok c =>
          match contentsOf ms with
          | Except.error e => Except.error e
          | Except.ok rest => Except.ok (c :: rest)

/-- The body of the `try` block of `_extract_recommendations`
(lines 131–212): any raised fault surfaces as `Except.error`. -/
def extractCore (history : List Msg) : Except Unit Recs :=
  match filterAssistant history with
  | Except.error e => Except.error e
  | Except.ok experts =>
      match contentsOf experts with
      | Except.error e => Except.error e
      | Except.ok contents =>
          let st := contents.foldl processMessage recsEmpty
          match history with
          | [] => Except.error ()
          | firstMsg :: _ =>
              match getKey firstMsg.content with
              | Except.error e => Except.error e
              | Except.ok firstContent =>
                  let st := addMemoryCritical firstContent st
                  let st := addCpuHotspots firstContent st
                  let st := reduceRecs st
                  Except.ok
                    (if allEmpty st then addDefaultRecommendations st else st)

/-- The fixed fallback value returned by the `except` clause
(lines 216–223). -/
def fallbackRecs : Recs :=
  { critical_issues :=
      ["Memory pressure is high - system is using 86% of available RAM"]
    performance :=
      ["Consider optimizing applications to reduce memory usage",
       "Monitor CPU cores 0, 1, and 2 which show higher usage than others"]
    optimization :=
      ["Review running processes and services to identify memory-intensive applications",
       "Consider redistributing workload across CPU cores for better balance"]
    upgrade_recommendations :=
      ["Consider upgrading RAM if high memory usage persists"] }

/-- `_extract_recommendations` (lines 129–223): the `try` body with every
fault replaced by the fixed fallback value. -/
def extractRecommendations (history : List Msg) : Recs :=
  match extractCore history with
  | Except.ok r => r
  | Except.error _ => fallbackRecs

/-! ## Collector invocation and the `/recommendations` endpoint
(`collect_system_info` lines 114–127, `process_diagnostics` lines 250–311,
`src/app.py` lines 16–20) -/

/-- One run of the external collector process: its exit code, its standard
error text, and the outcome of `json.loads` on its standard output
(`some` the parsed document, or `none` with the parse-error text). -/
structure CollectorOutcome where
  exitCode : Nat
  stderr : String
  parsed : Option RawMetrics
  parseErr : String
  deriving DecidableEq, Repr

/-- `collect_system_info` (lines 114–127): `check=True` raises
`CalledProcessError` on a non-zero exit, re-raised as a `RuntimeError`
carrying the collector's stderr; a stdout that fails to parse is re-raised
with the parse error. -/
def collect_system_info (o : CollectorOutcome) : Except String RawMetrics :=
  if o.exitCode ≠ 0 then
    Except.error ("Error running system diagnostics: " ++ o.stderr)
  else
    match o.parsed with
    | some raw => Except.ok raw
    | none => Except.error ("Error parsing system information: " ++ o.parseErr)

/-- The JSON body produced by `process_diagnostics`: the success shape of
lines 299–304 or the error shape of lines 308–311. -/
inductive ApiBody where
  | success (raw_metrics : RawMetrics) (analyzed_metrics : AnalyzedMetrics)
      (recommendations : Recs)
  | err (message : String)
  deriving DecidableEq, Repr

/-- `process_diagnostics` (lines 250–311).  The chat exchange is external:
the transcript it produces is passed in as `chatHistory`. -/
def process_diagnostics (o : CollectorOutcome) (chatHistory : List Msg) : ApiBody :=
  match collect_system_info o with
  | Except.error msg => ApiBody.err msg
  | Except.ok raw =>
      ApiBody.success raw (analyze raw) (extractRecommendations chatHistory)

/-- An HTTP response: the JSON body and the numeric status code. -/
structure HttpResponse where
  body : ApiBody
  status : Nat
  deriving DecidableEq, Repr

/-- The `/recommendations` handler (`src/app.py` lines 16–20):
`jsonify(result)` with Flask's default status 200. -/
def recommendationsEndpoint (o : CollectorOutcome) (chatHistory : List Msg) :
    HttpResponse :=
  { body := process_diagnostics o chatHistory, status := 200 }

/-! ## Spec-side auxiliary definitions -/

/-- Does a line's lowercased text contain a keyword of the given category?
This is the spec's reading of "matches keywords of a category", used to
compare against the source's `if`/`elif` dispatch. -/
def catMatches (c : RecCat) (line : String) : Bool :=
  match c with
  | .critical =>
      containsSub (lowerStr line) "critical" || containsSub (lowerStr line) "immediate"
  | .performance => containsSub (lowerStr line) "performance"
  | .optimization =>
      containsSub (lowerStr line) "optimization" || containsSub (lowerStr line) "optimize"
  | .upgrade => containsSub (lowerStr line) "upgrade"

/-- The spec's fixed priority order of the four categories. -/
def priorityOrder : List RecCat :=
  [.critical, .performance, .optimization, .upgrade]

/-- Does processing this line set `current_category`?  Exactly the header
case: the keyword dispatch fires and the stripped line ends with a colon. -/
def headerSets (p : String) : Bool :=
  (catOfLine (trimStr p)).isSome && strEndsWith (trimStr p) ":"

/-! ## Helper lemmas -/

/-- Appending into one bucket leaves every other bucket unchanged. -/
theorem recsGet_addTo_of_ne (r : Recs) (c c' : RecCat) (s : String)
    (h : c' ≠ c) : recsGet (addTo r c s) c' = recsGet r c' := by
  cases c <;> cases c' <;> simp_all [addTo, recsGet]

/-- Projecting the set-reduction commutes with `recsGet`. -/
theorem recsGet_reduceRecs (r : Recs) (c : RecCat) :
    recsGet (reduceRecs r) c = dedupNonEmpty (recsGet r c) := by
  cases c <;> rfl

/-- Membership in the reduced list: the original members that are not
blank. -/
theorem mem_dedupNonEmpty (xs : List String) (s : String) :
    s ∈ dedupNonEmpty xs ↔ s ∈ xs ∧ s ≠ "" := by
  simp [dedupNonEmpty, List.mem_dedup, List.mem_filter]

/-- The reduction pass is idempotent on a single list. -/
theorem dedupNonEmpty_idem (xs : List String) :
    dedupNonEmpty (dedupNonEmpty xs) = dedupNonEmpty xs := by
  unfold dedupNonEmpty
  have h1 :
      (((xs.filter fun s => !(s == "")).dedup).filter fun s => !(s == "")) =
        (xs.filter fun s => !(s == "")).dedup := by
    apply List.filter_eq_self.mpr
    intro a ha
    have ha' : a ∈ xs.filter fun s => !(s == "") := List.mem_dedup.mp ha
    exact (List.mem_filter.mp ha').2
  rw [h1, List.dedup_eq_self.mpr (List.nodup_dedup _)]

/-- A non-header line never changes `current_category`. -/
theorem processLine_cur_of_not_header (st : ScanState) (p : String)
    (h : headerSets p = false) : (processLine st p).cur = st.cur := by
  unfold headerSets at h
  unfold processLine
  by_cases hb : trimStr p = ""
  · simp [hb]
  · simp only [hb, if_false]
    cases hc : catOfLine (trimStr p) with
    | none =>
        cases hcur : st.cur with
        | none => simp [hcur]
        | some c =>
            by_cases hs : strStartsWith (trimStr p) "-" <;> simp [hcur, hs]
    | some c =>
        rw [hc] at h
        simp at h
        by_cases hs : strStartsWith (trimStr p) "-" <;> simp [h, hs]

/-- A line matching no keyword, scanned with no active category, is
dropped entirely. -/
theorem processLine_skip (st : ScanState) (l : String)
    (hc : catOfLine (trimStr l) = none) (hcur : st.cur = none) :
    processLine st l = st := by
  unfold processLine
  by_cases hb : trimStr l = ""
  · simp [hb]
  · simp [hb, hc, hcur]

/-- When every message's `role` key is present and differs from
`"assistant"`, the expert-response comprehension yields the empty list. -/
theorem filterAssistant_none (h : List Msg)
    (hr : ∀ m ∈ h, m.role.isSome = true ∧ (m.role == some "assistant") = false) :
    filterAssistant h = Except.ok [] := by
  induction h with
  | nil => rfl
  | cons m ms ih =>
      obtain ⟨hsome, hne⟩ := hr m (by simp)
      obtain ⟨r, hrole⟩ := Option.isSome_iff_exists.mp hsome
      rw [hrole] at hne
      have hne' : r ≠ "assistant" := by simpa using hne
      have ih' := ih fun x hx => hr x (by simp [hx])
      unfold filterAssistant
      rw [hrole]
      simp [getKey, ih', hne']

/-! ## Claim theorems -/

/-- C3: for every memory_usage_percentage p, the analyzer's
memory.pressure_level is "high" iff p > 80, "medium" iff 60 < p ≤ 80, and
"normal" iff p ≤ 60. -/
theorem memory_pressure_level_thresholds (raw : RawMetrics) :
    ((analyze raw).memory.pressure_level = "high" ↔
      80 < raw.memory_usage_percentage) ∧
    ((analyze raw).memory.pressure_level = "medium" ↔
      60 < raw.memory_usage_percentage ∧ raw.memory_usage_percentage ≤ 80) ∧
    ((analyze raw).memory.pressure_level = "normal" ↔
      raw.memory_usage_percentage ≤ 60) := by
  have hlv : (analyze raw).memory.pressure_level =
      pressureLevel raw.memory_usage_percentage := rfl
  rw [hlv]
  unfold pressureLevel
  split_ifs with h1 h2
  · exact ⟨iff_of_true rfl h1,
      iff_of_false (by decide) (fun h => absurd h1 (not_lt.mpr h.2)),
      iff_of_false (by decide) (not_le.mpr (by linarith))⟩
  · exact ⟨iff_of_false (by decide) h1,
      iff_of_true rfl ⟨h2, not_lt.mp h1⟩,
      iff_of_false (by decide) (not_le.mpr h2)⟩
  · exact ⟨iff_of_false (by decide) h1,
      iff_of_false (by decide) (fun h => absurd h.1 h2),
      iff_of_true rfl (not_lt.mp h2)⟩

/-- C4: for every disk in the input, the analyzer's storage status is
"critical" iff available_gb < 10, "warning" iff 10 ≤ available_gb < 50,
and "ok" otherwise. -/
theorem disk_status_thresholds (raw : RawMetrics) (d : Disk)
    (hd : d ∈ raw.disks) :
    analyzeDisk d ∈ (analyze raw).storage ∧
    ((analyzeDisk d).status = "critical" ↔ d.available_gb < 10) ∧
    ((analyzeDisk d).status = "warning" ↔
      10 ≤ d.available_gb ∧ d.available_gb < 50) ∧
    ((analyzeDisk d).status = "ok" ↔ 50 ≤ d.available_gb) := by
  refine ⟨?_, ?_⟩
  · show analyzeDisk d ∈ raw.disks.map analyzeDisk
    exact List.mem_map_of_mem analyzeDisk hd
  · have hst : (analyzeDisk d).status = diskStatus d := rfl
    rw [hst]
    unfold diskStatus
    split_ifs with h1 h2
    · exact ⟨iff_of_true rfl h1,
        iff_of_false (by decide) (fun h => absurd h1 (not_lt.mpr h.1)),
        iff_of_false (by decide) (not_le.mpr (by linarith))⟩
    · exact ⟨iff_of_false (by decide) h1,
        iff_of_true rfl ⟨not_lt.mp h1, h2⟩,
        iff_of_false (by decide) (not_le.mpr h2)⟩
    · exact ⟨iff_of_false (by decide) h1,
        iff_of_false (by decide) (fun h => absurd h.2 h2),
        iff_of_true rfl (not_lt.mp h2)⟩

/-- Witness for C4 at the spec's concrete scenario metrics. -/
theorem disk_status_thresholds_witness :
    analyzeDisk ⟨"/", 100, 5, 95⟩ ∈
      (analyze
        { cpu_count := 2
          cpus := [⟨0, 90⟩, ⟨1, 10⟩]
          total_memory_gb := 16
          used_memory_gb := 14
          available_memory_gb := 2
          memory_usage_percentage := 87.5
          disks := [⟨"/", 100, 5, 95⟩] }).storage ∧
    ((analyzeDisk ⟨"/", 100, 5, 95⟩).status = "critical" ↔
      (⟨"/", 100, 5, 95⟩ : Disk).available_gb < 10) ∧
    ((analyzeDisk ⟨"/", 100, 5, 95⟩).status = "warning" ↔
      10 ≤ (⟨"/", 100, 5, 95⟩ : Disk).available_gb ∧
        (⟨"/", 100, 5, 95⟩ : Disk).available_gb < 50) ∧
    ((analyzeDisk ⟨"/", 100, 5, 95⟩).status = "ok" ↔
      50 ≤ (⟨"/", 100, 5, 95⟩ : Disk).available_gb) :=
  disk_status_thresholds _ _ (by simp)

/-- C5: a disk with total_gb = 0 gets usage_percentage = 0; the division
is guarded by total_gb > 0. -/
theorem disk_zero_total_usage (d : Disk) (h : d.total_gb = 0) :
    (analyzeDisk d).usage_percentage = 0 ∧
    (analyzeDisk d).usage_percentage =
      (if d.total_gb > 0 then d.used_gb / d.total_gb * 100 else 0) := by
  constructor
  · show diskUsagePercentage d = 0
    unfold diskUsagePercentage
    rw [h]
    norm_num
  · rfl

/-- C6: the keyword dispatch tries the categories in the fixed priority
order critical, performance, optimization, upgrade — it equals the first
match in that order — and a dispatched line is assigned (as header or
bullet) only to that first matching category: every other bucket is left
unchanged by the line. -/
theorem line_category_priority (l : String) :
    catOfLine l = priorityOrder.find? (fun c => catMatches c l) ∧
    (∀ (st : ScanState) (c c' : RecCat), catOfLine (trimStr l) = some c →
      c' ≠ c → recsGet (processLine st l).recs c' = recsGet st.recs c') := by
  constructor
  · unfold catOfLine priorityOrder
    have e1 : (containsSub (lowerStr l) "critical" ||
        containsSub (lowerStr l) "immediate") = catMatches .critical l := rfl
    have e2 : containsSub (lowerStr l) "performance" =
        catMatches .performance l := rfl
    have e3 : (containsSub (lowerStr l) "optimization" ||
        containsSub (lowerStr l) "optimize") = catMatches .optimization l := rfl
    have e4 : containsSub (lowerStr l) "upgrade" = catMatches .upgrade l := rfl
    rw [e1, e2, e3, e4]
    cases h1 : catMatches .critical l <;>
      cases h2 : catMatches .performance l <;>
        cases h3 : catMatches .optimization l <;>
          cases h4 : catMatches .upgrade l <;>
            simp [List.find?, h1, h2, h3, h4]
  · intro st c c' hc hne
    unfold processLine
    by_cases hb : trimStr l = ""
    · rw [hb] at hc
      have h0 : catOfLine "" = none := by decide
      rw [h0] at hc
      exact Option.noConfusion hc
    · simp only [hb, if_false, hc]
      by_cases he : strEndsWith (trimStr l) ":"
      · simp [he]
      · by_cases hs : strStartsWith (trimStr l) "-"
        · simp only [he, if_false, hs, if_true]
          exact recsGet_addTo_of_ne st.recs c c' _ hne
        · simp [he, hs]

/-- Witness for C6: a bullet line containing both "critical" and
"performance" keywords leaves the performance bucket untouched. -/
theorem line_category_priority_witness :
    recsGet (processLine { recs := recsEmpty, cur := none }
        "- critical performance fix").recs RecCat.performance =
      recsGet ({ recs := recsEmpty, cur := none } : ScanState).recs
        RecCat.performance :=
  (line_category_priority "- critical performance fix").2
    { recs := recsEmpty, cur := none } RecCat.critical RecCat.performance
    (by decide) (by decide)

/-- C7: the supplementary memory-pressure rule appends exactly the fixed
critical-issue string and the fixed upgrade string when the raw
first-message content (lowercased) contains "pressure_level: high", and
appends nothing otherwise; the trigger is exactly that substring test. -/
theorem memory_critical_supplementary (firstContent : String) (r : Recs) :
    (isMemoryCritical firstContent = true →
      addMemoryCritical firstContent r =
        { r with
            critical_issues := r.critical_issues ++ [memCritStr]
            upgrade_recommendations :=
              r.upgrade_recommendations ++ [memUpgStr] }) ∧
    (isMemoryCritical firstContent = false →
      addMemoryCritical firstContent r = r) ∧
    isMemoryCritical firstContent =
      containsSub (lowerStr firstContent) "pressure_level: high" := by
  refine ⟨?_, ?_, rfl⟩ <;> intro h <;> simp [addMemoryCritical, h]

/-- Witness for C7: a first message containing the trigger substring gets
both fixed strings appended. -/
theorem memory_critical_supplementary_witness :
    addMemoryCritical "Memory pressure_level: high" recsEmpty =
      { recsEmpty with
          critical_issues := recsEmpty.critical_issues ++ [memCritStr]
          upgrade_recommendations :=
            recsEmpty.upgrade_recommendations ++ [memUpgStr] } :=
  (memory_critical_supplementary "Memory pressure_level: high" recsEmpty).1
    (by decide)

/-- C8: the set-reduction keeps exactly the unique non-blank entries of
each bucket and is idempotent. -/
theorem set_reduction_idempotent (r : Recs) :
    reduceRecs (reduceRecs r) = reduceRecs r ∧
    (∀ (c : RecCat) (s : String),
      s ∈ recsGet (reduceRecs r) c ↔ s ∈ recsGet r c ∧ s ≠ "") ∧
    (∀ c : RecCat, (recsGet (reduceRecs r) c).Nodup) := by
  refine ⟨?_, ?_, ?_⟩
  · show Recs.mk _ _ _ _ = Recs.mk _ _ _ _
    simp [reduceRecs, dedupNonEmpty_idem]
  · intro c s
    rw [recsGet_reduceRecs]
    exact mem_dedupNonEmpty _ _
  · intro c
    rw [recsGet_reduceRecs]
    exact List.nodup_dedup _

/-- C9: every fault raised inside the extraction body is caught and
replaced by the fixed fallback value, which carries hard-coded strings in
all four categories. -/
theorem extraction_fault_fallback (history : List Msg)
    (h : ∃ e, extractCore history = Except.error e) :
    extractRecommendations history = fallbackRecs ∧
    fallbackRecs.critical_issues ≠ [] ∧
    fallbackRecs.performance ≠ [] ∧
    fallbackRecs.optimization ≠ [] ∧
    fallbackRecs.upgrade_recommendations ≠ [] := by
  obtain ⟨e, he⟩ := h
  refine ⟨?_, by decide, by decide, by decide, by decide⟩
  unfold extractRecommendations
  rw [he]

/-- Witness for C9: the empty chat history faults (the raw first-message
access is out of bounds) and yields the fallback. -/
theorem extraction_fault_fallback_witness :
    extractRecommendations [] = fallbackRecs ∧
    fallbackRecs.critical_issues ≠ [] ∧
    fallbackRecs.performance ≠ [] ∧
    fallbackRecs.optimization ≠ [] ∧
    fallbackRecs.upgrade_recommendations ≠ [] :=
  extraction_fault_fallback [] ⟨(), rfl⟩

/-- C10: each message is scanned with `current_category` reset to none,
and inside a message a bullet line that matches no category keyword and
appears before any category-setting header is dropped: removing it leaves
the scan unchanged. -/
theorem category_reset_per_message (r : Recs) (content : String)
    (pre rest : List String) (l : String) :
    processMessage r content =
      (scanLines (splitNewlines content) { recs := r, cur := none }).recs ∧
    ((∀ p ∈ pre, headerSets p = false) → catOfLine (trimStr l) = none →
      scanLines (pre ++ l :: rest) { recs := r, cur := none } =
        scanLines (pre ++ rest) { recs := r, cur := none }) := by
  refine ⟨rfl, ?_⟩
  intro hpre hl
  induction pre generalizing r with
  | nil =>
      show scanLines (l :: rest) _ = _
      unfold scanLines
      rw [List.foldl_cons, processLine_skip _ _ hl rfl]
      rfl
  | cons p ps ih =>
      show scanLines (p :: (ps ++ l :: rest)) _ =
        scanLines (p :: (ps ++ rest)) _
      unfold scanLines
      rw [List.foldl_cons, List.foldl_cons]
      have hcur : (processLine { recs := r, cur := none } p).cur = none :=
        processLine_cur_of_not_header _ _ (hpre p (by simp))
      cases hst : processLine { recs := r, cur := none } p with
      | mk recs' cur' =>
          rw [hst] at hcur
          have hcur' : cur' = none := hcur
          subst hcur'
          exact ih recs' fun q hq => hpre q (List.mem_cons_of_mem _ hq)

/-- Witness for C10: a stray bullet after an inert line is dropped. -/
theorem category_reset_per_message_witness :
    scanLines (["Intro line"] ++ "- stray bullet" :: [])
        { recs := recsEmpty, cur := none } =
      scanLines (["Intro line"] ++ [])
        { recs := recsEmpty, cur := none } :=
  (category_reset_per_message recsEmpty "" ["Intro line"] [] "- stray bullet").2
    (by decide) (by decide)

/-- C1: a transcript with a first message but no assistant-authored
messages, whose raw first-message content contains neither trigger
substring, falls through to the default-recommendations population: two
performance items, two optimization items, zero critical issues and zero
upgrade recommendations. -/
theorem extract_empty_transcript_defaults (m : Msg) (rest : List Msg)
    (fc : String) (hcontent : m.content = some fc)
    (hroles : ∀ x ∈ m :: rest,
      x.role.isSome = true ∧ (x.role == some "assistant") = false)
    (h1 : containsSub (lowerStr fc) "pressure_level: high" = false)
    (h2 : containsSub (lowerStr fc) "high usage cores" = false) :
    extractRecommendations (m :: rest) =
      { critical_issues := []
        performance :=
          ["Monitor and optimize applications with high resource usage",
           "Review system startup programs and services"]
        optimization :=
          ["Implement regular system maintenance and cleanup",
           "Monitor resource usage patterns over time"]
        upgrade_recommendations := [] } ∧
    (extractRecommendations (m :: rest)).performance.length = 2 ∧
    (extractRecommendations (m :: rest)).optimization.length = 2 ∧
    (extractRecommendations (m :: rest)).critical_issues.length = 0 ∧
    (extractRecommendations (m :: rest)).upgrade_recommendations.length = 0 := by
  have hfa : filterAssistant (m :: rest) = Except.ok [] :=
    filterAssistant_none _ hroles
  have hcore : extractCore (m :: rest) =
      Except.ok
        { critical_issues := []
          performance :=
            ["Monitor and optimize applications with high resource usage",
             "Review system startup programs and services"]
          optimization :=
            ["Implement regular system maintenance and cleanup",
             "Monitor resource usage patterns over time"]
          upgrade_recommendations := [] } := by
    unfold extractCore
    rw [hfa]
    dsimp only [contentsOf, List.foldl]
    rw [hcontent]
    dsimp only [getKey]
    simp only [addMemoryCritical, addCpuHotspots, isMemoryCritical,
      hasCpuHotspots, h1, h2, if_false, Bool.false_eq_true]
    rfl
  have hres : extractRecommendations (m :: rest) =
      { critical_issues := []
        performance :=
          ["Monitor and optimize applications with high resource usage",
           "Review system startup programs and services"]
        optimization :=
          ["Implement regular system maintenance and cleanup",
           "Monitor resource usage patterns over time"]
        upgrade_recommendations := [] } := by
    unfold extractRecommendations
    rw [hcore]
  exact ⟨hres, by rw [hres]; rfl, by rw [hres]; rfl, by rw [hres]; rfl,
    by rw [hres]; rfl⟩

/-- Witness for C1: a single non-assistant message whose content has
neither trigger substring. -/
theorem extract_empty_transcript_defaults_witness :
    extractRecommendations [{ role := some "user", content := some "metrics" }] =
      { critical_issues := []
        performance :=
          ["Monitor and optimize applications with high resource usage",
           "Review system startup programs and services"]
        optimization :=
          ["Implement regular system maintenance and cleanup",
           "Monitor resource usage patterns over time"]
        upgrade_recommendations := [] } ∧
    (extractRecommendations
      [{ role := some "user", content := some "metrics" }]).performance.length = 2 ∧
    (extractRecommendations
      [{ role := some "user", content := some "metrics" }]).optimization.length = 2 ∧
    (extractRecommendations
      [{ role := some "user", content := some "metrics" }]).critical_issues.length = 0 ∧
    (extractRecommendations
      [{ role := some "user",
         content := some "metrics" }]).upgrade_recommendations.length = 0 :=
  extract_empty_transcript_defaults
    { role := some "user", content := some "metrics" } [] "metrics" rfl
    (by decide) (by decide) (by decide)

/-- C2 (amended): when the collector exits non-zero, the endpoint returns
HTTP 200 with body `{status: "error", message}` where the message is the
fixed prefix "Error running system diagnostics: " followed by the
collector's stderr text (not the bare stderr text). -/
theorem endpoint_collector_error_message (o : CollectorOutcome)
    (chatHistory : List Msg) (h : o.exitCode ≠ 0) :
    recommendationsEndpoint o chatHistory =
      { body := ApiBody.err ("Error running system diagnostics: " ++ o.stderr)
        status := 200 } := by
  unfold recommendationsEndpoint process_diagnostics collect_system_info
  simp [h]

/-- Witness for C2 (amended) at a concrete failing collector run. -/
theorem endpoint_collector_error_message_witness :
    recommendationsEndpoint
        { exitCode := 1, stderr := "disk failure", parsed := none,
          parseErr := "" } [] =
      { body := ApiBody.err
          ("Error running system diagnostics: " ++ "disk failure")
        status := 200 } :=
  endpoint_collector_error_message
    { exitCode := 1, stderr := "disk failure", parsed := none, parseErr := "" }
    [] (by decide)

/-- Counterexample to C2 as stated: at a concrete non-zero collector exit
with stderr "disk failure", the HTTP status is 200 but the message field
is not the collector's stderr text — it carries the fixed prefix. -/
theorem endpoint_collector_error_counterexample :
    (recommendationsEndpoint
        { exitCode := 1, stderr := "disk failure", parsed := none,
          parseErr := "" } []).status = 200 ∧
    (recommendationsEndpoint
        { exitCode := 1, stderr := "disk failure", parsed := none,
          parseErr := "" } []).body ≠ ApiBody.err "disk failure" ∧
    (recommendationsEndpoint
        { exitCode := 1, stderr := "disk failure", parsed := none,
          parseErr := "" } []).body =
      ApiBody.err "Error running system diagnostics: disk failure" := by
  refine ⟨rfl, ?_, rfl⟩
  decide

/-- Witness for C5 at a concrete zero-capacity disk. -/
theorem disk_zero_total_usage_witness :
    (analyzeDisk ⟨"data", 0, 3, 5⟩).usage_percentage = 0 ∧
    (analyzeDisk ⟨"data", 0, 3, 5⟩).usage_percentage =
      (if (⟨"data", 0, 3, 5⟩ : Disk).total_gb > 0 then
        (⟨"data", 0, 3, 5⟩ : Disk).used_gb /
          (⟨"data", 0, 3, 5⟩ : Disk).total_gb * 100
      else 0) :=
  disk_zero_total_usage _ rfl

end AutoGenSystem
